import Mathlib

/-!
Shallow embedding of the `arti-ffi` C boundary (src/src/lib.rs and
src/src/error.rs).

The source is a Rust FFI layer over the external `arti` collaborators
(Tor client, socks proxy, tokio).  The embedding models:

* the per-thread error slot (`LAST_ERROR` in error.rs) as an
  `Option String` holding the stored error's display message;
* `CString::new(s).unwrap().into_raw()` as a computation that panics
  exactly when `s` contains an interior NUL byte, and otherwise returns
  the string;
* the bounded (capacity 100) tokio `mpsc` progress channel as a FIFO
  queue of strings together with closed-flags for either end;
* opaque handles (`Box::into_raw` pointers) as natural numbers, with
  `0` playing the role of the null pointer; freshly boxed pointers are
  always nonzero;
* the outcomes of the external fallible collaborators
  (`CStr::to_str`, `TokioNativeTlsRuntime::create`, config build,
  `create_bootstrapped`, `run_socks_proxy`, the lazy `RUNTIME` build)
  as `Except String _` / `Bool` inputs supplied by an environment
  record, threaded through in exactly the source's order;
* asynchronous execution contexts explicitly: the process-wide
  `lazy_static RUNTIME` versus the `TokioNativeTlsRuntime` freshly
  created inside every `arti_start` call.

Blocking calls (`block_on`, `blocking_recv`) are modelled
synchronously: the embedded function returns the awaited outcome,
which is exactly the caller-visible behaviour of a blocking call.
-/

namespace ArtiFfi

/-- Outcome of a boundary computation that may panic (a Rust `unwrap`
failing).  `panicked` means the call does not return a value to the
caller. -/
inductive Outcome (α : Type) where
  | ok : α → Outcome α
  | panicked : Outcome α
deriving DecidableEq, Repr

/-- Does the string contain an interior NUL byte?  `CString::new`
fails (and the source's `.unwrap()` panics) exactly in this case. -/
def hasInteriorNul (s : String) : Bool :=
  s.data.any (fun c => c = Char.ofNat 0)

/-- Model of `CString::new(s).unwrap().into_raw()`: returns the string as a C
string, panicking when it contains an interior NUL byte. -/
def cstringNew (s : String) : Outcome String :=
  if hasInteriorNul s then Outcome.panicked else Outcome.ok s

/-! ## error.rs : the thread-local error slot -/

/-- One thread's `LAST_ERROR: RefCell<Option<Box<dyn Error>>>` slot,
modelled by the stored error's display message. -/
abbrev ErrorSlot := Option String

/-- Function `update_last_error`: stores the error into the calling thread's
slot, overwriting any prior unread error.  (The source additionally
logs the cause chain; logging has no caller-visible state.) -/
def update_last_error (err : String) (_slot : ErrorSlot) : ErrorSlot :=
  some err

/-- Function `take_last_error`: removes and returns the slot's content, leaving
it empty. -/
def take_last_error (slot : ErrorSlot) : Option String × ErrorSlot :=
  (slot, none)

/-- Boundary call `arti_last_error_message`: takes the last error; if none is
present returns the empty C string, otherwise converts the error's
display message to a C string (panicking on an interior NUL byte,
per `CString::new(..).unwrap()`). -/
def arti_last_error_message (slot : ErrorSlot) : Outcome String × ErrorSlot :=
  match take_last_error slot with
  | (none, slot') => (Outcome.ok "", slot')
  | (some err, slot') => (cstringNew err, slot')

/-! ## The progress channel (`tokio::sync::mpsc::channel::<String>(100)`) -/

/-- The progress channel: a FIFO queue of pending messages (head is
the oldest), plus flags recording whether the send end or the receive
end has been dropped. -/
structure Channel where
  queue : List String
  senderClosed : Bool
  receiverClosed : Bool
deriving DecidableEq, Repr

/-- Model of `mpsc::channel::<String>(100)`: a fresh empty channel with both
ends alive. -/
def Channel.new : Channel :=
  { queue := [], senderClosed := false, receiverClosed := false }

/-- Result of `Sender::send(..).await` as seen at one step: the send
either enqueues, would suspend the producer (queue at capacity 100),
or errors because the receive end was dropped. -/
inductive SendOutcome where
  | sent : Channel → SendOutcome
  | wouldBlock : SendOutcome
  | errClosed : SendOutcome
deriving DecidableEq, Repr

/-- Model of `Sender::send(m).await` on the bounded (100) channel. -/
def channelSend (ch : Channel) (m : String) : SendOutcome :=
  if ch.receiverClosed then SendOutcome.errClosed
  else if ch.queue.length < 100 then
    SendOutcome.sent { ch with queue := ch.queue ++ [m] }
  else SendOutcome.wouldBlock

/-- Result of `Receiver::blocking_recv()`: a dequeued message, `None`
(send end closed and queue drained), or the caller stays suspended
because the queue is empty and the send end is still alive. -/
inductive RecvResult where
  | msg : String → RecvResult
  | closedEmpty : RecvResult
  | blocks : RecvResult
deriving DecidableEq, Repr

/-- Model of `Receiver::blocking_recv()` on the channel state. -/
def blocking_recv (ch : Channel) : RecvResult × Channel :=
  match ch.queue with
  | m :: rest => (RecvResult.msg m, { ch with queue := rest })
  | [] =>
    if ch.senderClosed then (RecvResult.closedEmpty, ch)
    else (RecvResult.blocks, ch)

/-- Caller-visible result of `arti_progress_next`: a returned C
string, a panic (interior NUL in the message), or the call still
blocking. -/
inductive ProgressNextResult where
  | returns : String → ProgressNextResult
  | panicked : ProgressNextResult
  | blocks : ProgressNextResult
deriving DecidableEq, Repr

/-- Boundary call `arti_progress_next`: blocking-receives on the bundle's progress
receiver; a received message is converted by
`CString::new(progress).unwrap()`, and `None` (channel closed and
drained) yields the `"No progress"` sentinel. -/
def arti_progress_next (ch : Channel) : ProgressNextResult × Channel :=
  match blocking_recv ch with
  | (RecvResult.msg m, ch') =>
    (match cstringNew m with
     | Outcome.ok s => (ProgressNextResult.returns s, ch')
     | Outcome.panicked => (ProgressNextResult.panicked, ch'))
  | (RecvResult.closedEmpty, ch') => (ProgressNextResult.returns "No progress", ch')
  | (RecvResult.blocks, ch') => (ProgressNextResult.blocks, ch')

/-! ## Clients, handles and execution contexts -/

/-- Type `DormantMode` (from `arti_client`): only the two variants the
boundary selects between. -/
inductive DormantMode where
  | Normal : DormantMode
  | Soft : DormantMode
deriving DecidableEq, Repr

/-- An asynchronous execution context.  `globalRuntime` is the
process-wide `lazy_static RUNTIME` (a tokio multi-thread runtime,
built at most once).  `perCall id` is the `TokioNativeTlsRuntime`
freshly created by the `id`-th successful
`TokioNativeTlsRuntime::create()` inside `arti_start`. -/
inductive ExecCtx where
  | globalRuntime : ExecCtx
  | perCall : Nat → ExecCtx
deriving DecidableEq, Repr

/-- The caller-visible state of a `TorClient<TokioNativeTlsRuntime>`:
its current dormancy mode and the identity of the per-call runtime it
was created with (`client.runtime()`). -/
structure TorClient where
  dormant : DormantMode
  runtimeId : Nat
deriving DecidableEq, Repr

/-- The heap of boxed client handles: which `TorClient` object, if
any, is in caller custody at a given raw pointer (pointer `0` is
null). -/
def Heap := Nat → Option TorClient

/-- Update the heap at one pointer. -/
def Heap.update (h : Heap) (p : Nat) (v : Option TorClient) : Heap :=
  fun q => if q = p then v else h q

/-- The spawned proxy task (the future handed to `rt.spawn` by
`start_proxy`): the execution context it was submitted to, the
progress message its body sends first, and the port the socks proxy
binds on localhost. -/
structure ProxyTask where
  runsOn : ExecCtx
  msg : String
  port : Nat
deriving DecidableEq, Repr

/-- The state of a `JoinHandle<anyhow::Result<()>>` as the boundary
can affect it: whether `abort` has been requested. -/
structure JoinHandleState where
  aborted : Bool
deriving DecidableEq, Repr

/-- Function `start_proxy(port, client, progress_sender)`: unwraps the
process-wide `RUNTIME` (panicking when its lazy build failed), clones
the sender, and spawns onto that global runtime a task that first
sends `"Proxy started"` and then runs the socks proxy on
`localhost:port`.  `globalRuntimeOk` is whether
`Builder::new_multi_thread().enable_all().build()` succeeded. -/
def start_proxy (globalRuntimeOk : Bool) (port : Nat) : Outcome ProxyTask :=
  if globalRuntimeOk then
    Outcome.ok { runsOn := ExecCtx.globalRuntime, msg := "Proxy started", port := port }
  else Outcome.panicked

/-- How the spawned proxy task finishes: completing with the socks
proxy's result, panicking inside the task (the `send(..).unwrap()`
when the receive end was dropped), or suspended (queue at capacity). -/
inductive TaskOutcome where
  | completed : Except String Unit → TaskOutcome
  | sendPanicked : TaskOutcome
  | suspended : TaskOutcome
deriving Repr

/-- State after driving the spawned proxy task: the channel, the
calling thread's error slot (the task body never touches any slot),
and the task's outcome. -/
structure TaskRun where
  channel : Channel
  slot : ErrorSlot
  outcome : TaskOutcome
deriving Repr

/-- Drive the spawned proxy task body to completion:
`progress_sender.send("Proxy started").await.unwrap()` followed by
`run_socks_proxy(..).await`, whose eventual result is `proxyRes`.
The body never calls `update_last_error`, so every slot passes
through unchanged. -/
def runProxyTask (t : ProxyTask) (proxyRes : Except String Unit)
    (ch : Channel) (slot : ErrorSlot) : TaskRun :=
  match channelSend ch t.msg with
  | SendOutcome.errClosed => { channel := ch, slot := slot, outcome := TaskOutcome.sendPanicked }
  | SendOutcome.wouldBlock => { channel := ch, slot := slot, outcome := TaskOutcome.suspended }
  | SendOutcome.sent ch' =>
    { channel := ch', slot := slot, outcome := TaskOutcome.completed proxyRes }

/-! ## arti_start -/

/-- The C-layout struct `Tor`: the four opaque pointers returned by
`arti_start` (pointer `0` is null). -/
structure Tor where
  client : Nat
  proxy : Nat
  progress_sender : Nat
  progress_receiver : Nat
deriving DecidableEq, Repr

/-- Outcomes of the external fallible steps `arti_start` performs, in
source order: `CStr::from_ptr(state_dir).to_str()`,
`CStr::from_ptr(cache_dir).to_str()`,
`TokioNativeTlsRuntime::create()`, `cfg_builder.build()`,
`create_bootstrapped().await`, plus whether the lazy `RUNTIME` build
succeeded and the eventual `run_socks_proxy` result. -/
structure StartEnv where
  stateDirUtf8 : Except String String
  cacheDirUtf8 : Except String String
  runtimeCreate : Except String Unit
  cfgBuild : Except String Unit
  bootstrap : Except String Unit
  globalRuntimeOk : Bool
  proxyRun : Except String Unit
deriving Repr

/-- Pre-call state of the calling thread/process: its error slot, the
client-handle heap, the next fresh box address (fresh pointers are
`nextPtr + 1`, `nextPtr + 2`, ... — always nonzero), and the index of
the next per-call runtime. -/
structure St where
  slot : ErrorSlot
  heap : Heap
  nextPtr : Nat
  nextRuntime : Nat

/-- Everything a call to `arti_start` produces or affects: the
returned `Tor` (or a panic), the error slot, the heap, the progress
channel it allocated, the proxy task it spawned (if reached), the
context `create_bootstrapped` was `block_on`-driven on (if reached),
and how many new `TokioNativeTlsRuntime` execution contexts the call
created. -/
structure StartResult where
  outcome : Outcome Tor
  slot : ErrorSlot
  heap : Heap
  channel : Channel
  spawnedTask : Option ProxyTask
  bootstrapRanOn : Option ExecCtx
  runtimesCreated : Nat

/-- Boundary call `arti_start(socks_port, state_dir, cache_dir)`:

1. creates the capacity-100 progress channel and immediately boxes
   both ends (`progress_sender_ptr`, `progress_receiver_ptr`);
2. builds `err_ret` = null client/proxy with those two pointers;
3. decodes the two path strings, creates a fresh
   `TokioNativeTlsRuntime`, builds the config, and `block_on`s
   `create_bootstrapped` on that fresh runtime — each step returning
   `err_ret` via `unwrap_or_return!` (which stores the error in the
   thread's slot) on failure;
4. on success spawns the proxy via `start_proxy` (which panics if the
   lazy global `RUNTIME` failed to build), boxes the join handle and a
   clone of the client, and returns all four pointers. -/
def arti_start (env : StartEnv) (socks_port : Nat) (st : St) : StartResult :=
  let ch := Channel.new
  let p1 := st.nextPtr + 1
  let p2 := st.nextPtr + 2
  let err_ret : Tor :=
    { client := 0, proxy := 0, progress_sender := p1, progress_receiver := p2 }
  let base : StartResult :=
    { outcome := Outcome.ok err_ret
      slot := st.slot
      heap := st.heap
      channel := ch
      spawnedTask := none
      bootstrapRanOn := none
      runtimesCreated := 0 }
  match env.stateDirUtf8 with
  | Except.error e => { base with slot := update_last_error e st.slot }
  | Except.ok _ =>
  match env.cacheDirUtf8 with
  | Except.error e => { base with slot := update_last_error e st.slot }
  | Except.ok _ =>
  match env.runtimeCreate with
  | Except.error e => { base with slot := update_last_error e st.slot }
  | Except.ok _ =>
  let rtId := st.nextRuntime
  match env.cfgBuild with
  | Except.error e =>
    { base with slot := update_last_error e st.slot, runtimesCreated := 1 }
  | Except.ok _ =>
  match env.bootstrap with
  | Except.error e =>
    { base with
      slot := update_last_error e st.slot
      runtimesCreated := 1
      bootstrapRanOn := some (ExecCtx.perCall rtId) }
  | Except.ok _ =>
  match start_proxy env.globalRuntimeOk socks_port with
  | Outcome.panicked =>
    { base with
      outcome := Outcome.panicked
      runtimesCreated := 1
      bootstrapRanOn := some (ExecCtx.perCall rtId) }
  | Outcome.ok task =>
    let p3 := st.nextPtr + 3
    let p4 := st.nextPtr + 4
    { outcome := Outcome.ok
        { client := p4, proxy := p3, progress_sender := p1, progress_receiver := p2 }
      slot := st.slot
      heap := Heap.update st.heap p4
        (some { dormant := DormantMode.Normal, runtimeId := rtId })
      channel := ch
      spawnedTask := some task
      bootstrapRanOn := some (ExecCtx.perCall rtId)
      runtimesCreated := 1 }

/-- The error message of the first failing step of `arti_start`
(`none` when all of the steps up to and including bootstrap
succeed) — in exactly the source's step order. -/
def firstStartError (env : StartEnv) : Option String :=
  match env.stateDirUtf8 with
  | Except.error e => some e
  | Except.ok _ =>
  match env.cacheDirUtf8 with
  | Except.error e => some e
  | Except.ok _ =>
  match env.runtimeCreate with
  | Except.error e => some e
  | Except.ok _ =>
  match env.cfgBuild with
  | Except.error e => some e
  | Except.ok _ =>
  match env.bootstrap with
  | Except.error e => some e
  | Except.ok _ => none

/-! ## arti_client_bootstrap / arti_client_set_dormant / arti_proxy_stop -/

/-- Boundary call `arti_client_bootstrap(client)`: `Box::from_raw` reconstitutes the
client (taking it out of caller custody; the box is dropped when the
function returns, so the handle is permanently consumed), then
`block_on`s `client.bootstrap()` on the client's own runtime;
`unwrap_or_return!` records a failure and returns `false`, otherwise
the call returns `true`.  `res` is the awaited bootstrap outcome. -/
def arti_client_bootstrap (res : Except String Unit) (p : Nat)
    (heap : Heap) (slot : ErrorSlot) : Bool × Heap × ErrorSlot :=
  let heap' := Heap.update heap p none
  match res with
  | Except.ok _ => (true, heap', slot)
  | Except.error e => (false, heap', update_last_error e slot)

/-- The execution context `arti_client_bootstrap` blocks the calling
thread on: `client.runtime()`, i.e. the per-call
`TokioNativeTlsRuntime` the client was created with. -/
def arti_client_bootstrap_blocksOn (c : TorClient) : ExecCtx :=
  ExecCtx.perCall c.runtimeId

/-- Boundary call `arti_client_set_dormant(client, soft_mode)`: reconstitutes the
client, applies `DormantMode::Soft` when `soft_mode` else
`DormantMode::Normal`, then `Box::leak`s the box so the object stays
alive at the same address — the handle remains valid.  The body never
touches the error slot.  (Calling it on a dangling pointer is
undefined behaviour in the source; the `none` branch is never used by
the theorems, which require a valid handle.) -/
def arti_client_set_dormant (p : Nat) (soft_mode : Bool)
    (heap : Heap) (slot : ErrorSlot) : Heap × ErrorSlot :=
  match heap p with
  | none => (heap, slot)
  | some c =>
    let dormant_mode := if soft_mode then DormantMode.Soft else DormantMode.Normal
    (Heap.update heap p (some { c with dormant := dormant_mode }), slot)

/-- Boundary call `arti_proxy_stop(proxy)`: reconstitutes the join handle
(consuming the box) and calls `abort()`; it never touches the error
slot. -/
def arti_proxy_stop (h : JoinHandleState) (slot : ErrorSlot) :
    JoinHandleState × ErrorSlot :=
  ({ h with aborted := true }, slot)

/-- Driver folding a finite sequence of `arti_client_set_dormant`
calls (one `soft_mode` flag per call) on the same handle. -/
def setDormantSeq (p : Nat) (calls : List Bool) (heap : Heap) (slot : ErrorSlot) :
    Heap × ErrorSlot :=
  match calls with
  | [] => (heap, slot)
  | soft :: rest =>
    let hs := arti_client_set_dormant p soft heap slot
    setDormantSeq p rest hs.1 hs.2

/-! ## Sample inputs used by witnesses and counterexamples -/

/-- An environment in which every external step succeeds. -/
def envOk : StartEnv :=
  { stateDirUtf8 := Except.ok "/tmp/state"
    cacheDirUtf8 := Except.ok "/tmp/cache"
    runtimeCreate := Except.ok ()
    cfgBuild := Except.ok ()
    bootstrap := Except.ok ()
    globalRuntimeOk := true
    proxyRun := Except.ok () }

/-- The same environment except that the lazy build of the
process-wide `RUNTIME` failed. -/
def envNoRt : StartEnv := { envOk with globalRuntimeOk := false }

/-- The same environment except that decoding the state-dir string
fails (invalid UTF-8 in the path argument). -/
def envBadState : StartEnv :=
  { envOk with stateDirUtf8 := Except.error "invalid utf-8" }

/-- A pre-call thread/process state: empty error slot, empty heap,
fresh counters. -/
def st0 : St :=
  { slot := none, heap := fun _ => none, nextPtr := 0, nextRuntime := 0 }

/-- A sample client, created with per-call runtime 0. -/
def c0 : TorClient := { dormant := DormantMode.Normal, runtimeId := 0 }

/-- A heap holding `c0` at pointer 1. -/
def heap0 : Heap := Heap.update (fun _ => none) 1 (some c0)

/-! ## Theorems -/

/-- Case analysis of `arti_start`, following the source's
`unwrap_or_return!` chain: either some step up to and including
bootstrap failed (the sentinel `Tor` is returned and the error is
recorded in the slot), or all those steps succeeded but the lazy
global runtime build had failed (so `start_proxy` panics on its
`unwrap`), or everything succeeded. -/
theorem arti_start_cases (env : StartEnv) (port : Nat) (st : St) :
    (∃ e, firstStartError env = some e
      ∧ (arti_start env port st).outcome = Outcome.ok
          { client := 0
            proxy := 0
            progress_sender := st.nextPtr + 1
            progress_receiver := st.nextPtr + 2 }
      ∧ (arti_start env port st).slot = some e
      ∧ (arti_start env port st).spawnedTask = none
      ∧ (arti_start env port st).channel = Channel.new)
    ∨ (firstStartError env = none ∧ env.globalRuntimeOk = false
      ∧ (arti_start env port st).outcome = Outcome.panicked
      ∧ (arti_start env port st).slot = st.slot
      ∧ (arti_start env port st).spawnedTask = none
      ∧ (arti_start env port st).channel = Channel.new)
    ∨ (firstStartError env = none ∧ env.globalRuntimeOk = true
      ∧ (arti_start env port st).outcome = Outcome.ok
          { client := st.nextPtr + 4
            proxy := st.nextPtr + 3
            progress_sender := st.nextPtr + 1
            progress_receiver := st.nextPtr + 2 }
      ∧ (arti_start env port st).slot = st.slot
      ∧ (arti_start env port st).spawnedTask
          = some { runsOn := ExecCtx.globalRuntime, msg := "Proxy started", port := port }
      ∧ (arti_start env port st).channel = Channel.new) := by
  obtain ⟨sd, cd, rc, cb, bs, gok, pr⟩ := env
  cases sd <;> cases cd <;> cases rc <;> cases cb <;> cases bs <;> cases gok <;>
    first
      | exact Or.inl ⟨_, rfl, rfl, rfl, rfl, rfl⟩
      | exact Or.inr (Or.inl ⟨rfl, rfl, rfl, rfl, rfl, rfl⟩)
      | exact Or.inr (Or.inr ⟨rfl, rfl, rfl, rfl, rfl, rfl⟩)

/-- C3: for every call to `arti_start` that returns, either all four
returned handles are non-null, or the client and proxy handles are
null while the two progress-channel ends are exactly the non-null
pointers boxed at entry and the calling thread's error slot holds the
first failing step's message. -/
theorem arti_start_handle_dichotomy (env : StartEnv) (port : Nat) (st : St) (t : Tor)
    (h : (arti_start env port st).outcome = Outcome.ok t) :
    (t.client ≠ 0 ∧ t.proxy ≠ 0 ∧ t.progress_sender ≠ 0 ∧ t.progress_receiver ≠ 0)
    ∨ (t.client = 0 ∧ t.proxy = 0
      ∧ t.progress_sender = st.nextPtr + 1 ∧ t.progress_receiver = st.nextPtr + 2
      ∧ t.progress_sender ≠ 0 ∧ t.progress_receiver ≠ 0
      ∧ ∃ e, firstStartError env = some e ∧ (arti_start env port st).slot = some e) := by
  rcases arti_start_cases env port st with
    ⟨e, hf, ho, hs, _, _⟩ | ⟨_, _, ho, _, _, _⟩ | ⟨_, _, ho, _, _, _⟩
  · injection h.symm.trans ho with ht
    subst ht
    exact Or.inr ⟨rfl, rfl, rfl, rfl, Nat.succ_ne_zero _, Nat.succ_ne_zero _, e, hf, hs⟩
  · rw [ho] at h
    exact Outcome.noConfusion h
  · injection h.symm.trans ho with ht
    subst ht
    exact Or.inl ⟨Nat.succ_ne_zero _, Nat.succ_ne_zero _, Nat.succ_ne_zero _, Nat.succ_ne_zero _⟩

/-- Witness for C3: with a failing state-dir decoding, the concrete
call returns the sentinel `Tor` and the dichotomy's second branch. -/
theorem arti_start_handle_dichotomy_witness :
    (Tor.client { client := 0, proxy := 0, progress_sender := 1, progress_receiver := 2 } ≠ 0
      ∧ Tor.proxy { client := 0, proxy := 0, progress_sender := 1, progress_receiver := 2 } ≠ 0
      ∧ Tor.progress_sender { client := 0, proxy := 0, progress_sender := 1, progress_receiver := 2 } ≠ 0
      ∧ Tor.progress_receiver { client := 0, proxy := 0, progress_sender := 1, progress_receiver := 2 } ≠ 0)
    ∨ (Tor.client { client := 0, proxy := 0, progress_sender := 1, progress_receiver := 2 } = 0
      ∧ Tor.proxy { client := 0, proxy := 0, progress_sender := 1, progress_receiver := 2 } = 0
      ∧ Tor.progress_sender { client := 0, proxy := 0, progress_sender := 1, progress_receiver := 2 } = st0.nextPtr + 1
      ∧ Tor.progress_receiver { client := 0, proxy := 0, progress_sender := 1, progress_receiver := 2 } = st0.nextPtr + 2
      ∧ Tor.progress_sender { client := 0, proxy := 0, progress_sender := 1, progress_receiver := 2 } ≠ 0
      ∧ Tor.progress_receiver { client := 0, proxy := 0, progress_sender := 1, progress_receiver := 2 } ≠ 0
      ∧ ∃ e, firstStartError envBadState = some e
          ∧ (arti_start envBadState 9050 st0).slot = some e) :=
  arti_start_handle_dichotomy envBadState 9050 st0
    { client := 0, proxy := 0, progress_sender := 1, progress_receiver := 2 } rfl

/-- C6: the error slot has take-once semantics — after any call to
`arti_last_error_message` the slot is empty, so an immediately
following call returns the empty string; likewise a second
consecutive `take_last_error` finds nothing. -/
theorem arti_last_error_message_take_once (slot : ErrorSlot) :
    (arti_last_error_message (arti_last_error_message slot).2).1 = Outcome.ok ""
    ∧ (take_last_error (take_last_error slot).2).1 = none := by
  cases slot <;> exact ⟨rfl, rfl⟩

/-- C9: the spawned proxy task's body (send the progress message,
then run the socks proxy) never touches any thread's error slot, and
neither does `arti_proxy_stop`; a thread that made no failing call
(empty slot) still reads the empty string from
`arti_last_error_message` after the task completes with an error. -/
theorem proxy_errors_not_recorded (t : ProxyTask) (e : String) (ch : Channel)
    (slot : ErrorSlot) (jh : JoinHandleState) :
    (runProxyTask t (Except.error e) ch slot).slot = slot
    ∧ (arti_proxy_stop jh slot).2 = slot
    ∧ (arti_last_error_message (runProxyTask t (Except.error e) ch none).slot).1
        = Outcome.ok "" := by
  have hslot : ∀ s : ErrorSlot, (runProxyTask t (Except.error e) ch s).slot = s := by
    intro s
    unfold runProxyTask
    cases channelSend ch t.msg <;> rfl
  refine ⟨hslot slot, rfl, ?_⟩
  rw [hslot none]
  rfl

/-- C10: `arti_client_set_dormant` is infallible at the boundary —
for a valid client handle and either `soft_mode`, the calling
thread's error slot is exactly the same after the call as before. -/
theorem arti_client_set_dormant_no_error (p : Nat) (soft : Bool) (heap : Heap)
    (slot : ErrorSlot) (c : TorClient) (h : heap p = some c) :
    (arti_client_set_dormant p soft heap slot).2 = slot := by
  unfold arti_client_set_dormant
  rw [h]

/-- Witness for C10 at a concrete valid handle. -/
theorem arti_client_set_dormant_no_error_witness :
    (arti_client_set_dormant 1 true heap0 (some "old")).2 = some "old" :=
  arti_client_set_dormant_no_error 1 true heap0 (some "old") c0 rfl

/-- C4: for a valid client handle, `arti_client_bootstrap` takes the
pointed-to client out of caller custody (the handle is permanently
consumed — the heap no longer holds it), and — the call being a
synchronous `block_on` of the bootstrap sequence — returns `true` when
the bootstrap succeeded, and on failure records the error to the
calling thread's slot and returns `false`. -/
theorem arti_client_bootstrap_consumes_and_reports (res : Except String Unit) (p : Nat)
    (heap : Heap) (slot : ErrorSlot) (c : TorClient) (h : heap p = some c) :
    (arti_client_bootstrap res p heap slot).2.1 p = none
    ∧ (res = Except.ok () → (arti_client_bootstrap res p heap slot).1 = true
        ∧ (arti_client_bootstrap res p heap slot).2.2 = slot)
    ∧ (∀ e, res = Except.error e → (arti_client_bootstrap res p heap slot).1 = false
        ∧ (arti_client_bootstrap res p heap slot).2.2 = some e) := by
  refine ⟨?_, ?_, ?_⟩
  · cases res <;> simp [arti_client_bootstrap, Heap.update]
  · intro hres
    subst hres
    exact ⟨rfl, rfl⟩
  · intro e hres
    subst hres
    exact ⟨rfl, rfl⟩

/-- Witness for C4 at a concrete valid handle whose bootstrap
fails. -/
theorem arti_client_bootstrap_consumes_and_reports_witness :
    (arti_client_bootstrap (Except.error "bootstrap failed") 1 heap0 none).2.1 1 = none
    ∧ (arti_client_bootstrap (Except.error "bootstrap failed") 1 heap0 none).1 = false
    ∧ (arti_client_bootstrap (Except.error "bootstrap failed") 1 heap0 none).2.2
        = some "bootstrap failed" := by
  have h := arti_client_bootstrap_consumes_and_reports
    (Except.error "bootstrap failed") 1 heap0 none c0 rfl
  exact ⟨h.1, (h.2.2 "bootstrap failed" rfl).1, (h.2.2 "bootstrap failed" rfl).2⟩

/-- One `arti_client_set_dormant` call on a valid handle leaves the
updated client at the same address, with the selected mode. -/
theorem set_dormant_at (p : Nat) (soft : Bool) (heap : Heap) (slot : ErrorSlot)
    (c : TorClient) (h : heap p = some c) :
    (arti_client_set_dormant p soft heap slot).1 p
      = some { c with dormant := if soft then DormantMode.Soft else DormantMode.Normal } := by
  unfold arti_client_set_dormant
  rw [h]
  simp [Heap.update]

/-- Any finite sequence of `arti_client_set_dormant` calls keeps a
valid handle valid. -/
theorem setDormantSeq_valid (p : Nat) (calls : List Bool) :
    ∀ (heap : Heap) (slot : ErrorSlot) (c : TorClient), heap p = some c →
      ∃ c', (setDormantSeq p calls heap slot).1 p = some c' := by
  induction calls with
  | nil =>
    intro heap slot c h
    exact ⟨c, h⟩
  | cons soft rest ih =>
    intro heap slot c h
    exact ih _ _ _ (set_dormant_at p soft heap slot c h)

/-- C5: `arti_client_set_dormant` does not consume the handle — each
call applies `DormantMode.Soft` exactly when `soft` is true (else
`DormantMode.Normal`), and after any finite sequence of such calls
the same handle still holds a client. -/
theorem arti_client_set_dormant_reusable (p : Nat) (heap : Heap) (slot : ErrorSlot)
    (c : TorClient) (h : heap p = some c) :
    (∀ soft, (arti_client_set_dormant p soft heap slot).1 p
        = some { c with dormant := if soft then DormantMode.Soft else DormantMode.Normal })
    ∧ (∀ calls : List Bool, ∃ c',
        (setDormantSeq p calls heap slot).1 p = some c') :=
  ⟨fun soft => set_dormant_at p soft heap slot c h,
   fun calls => setDormantSeq_valid p calls heap slot c h⟩

/-- Witness for C5: a concrete handle survives an alternating
soft/normal call sequence, and one call applies the soft mode. -/
theorem arti_client_set_dormant_reusable_witness :
    (arti_client_set_dormant 1 true heap0 none).1 1
      = some { dormant := DormantMode.Soft, runtimeId := 0 }
    ∧ ∃ c', (setDormantSeq 1 [true, false, true] heap0 none).1 1 = some c' := by
  have h := arti_client_set_dormant_reusable 1 heap0 none c0 rfl
  exact ⟨h.1 true, h.2 [true, false, true]⟩

/-- C7: `arti_progress_next` on a handle bundle either returns the
oldest available message (the only message the program ever sends is
`"Proxy started"`, which contains no interior NUL byte, hence the
NUL-freedom hypothesis holds on every reachable channel), or — with
the send end dropped and the queue drained — returns the
`"No progress"` sentinel; otherwise the calling thread stays
blocked. -/
theorem arti_progress_next_blocking_spec (ch : Channel) :
    (∀ m rest, ch.queue = m :: rest → hasInteriorNul m = false →
      arti_progress_next ch = (ProgressNextResult.returns m, { ch with queue := rest }))
    ∧ (ch.queue = [] → ch.senderClosed = true →
      (arti_progress_next ch).1 = ProgressNextResult.returns "No progress")
    ∧ (ch.queue = [] → ch.senderClosed = false →
      (arti_progress_next ch).1 = ProgressNextResult.blocks) := by
  obtain ⟨q, sc, rc⟩ := ch
  refine ⟨?_, ?_, ?_⟩
  · intro m rest hq hnul
    subst hq
    simp [arti_progress_next, blocking_recv, cstringNew, hnul]
  · intro hq hs
    subst hq
    subst hs
    rfl
  · intro hq hs
    subst hq
    subst hs
    rfl

/-- Witness for C7: on a concrete bundle whose channel holds
`"Proxy started"`, the call returns that message; on a drained closed
channel it returns the sentinel; on a drained open channel it
blocks. -/
theorem arti_progress_next_blocking_spec_witness :
    arti_progress_next { queue := ["Proxy started"], senderClosed := false, receiverClosed := false }
      = (ProgressNextResult.returns "Proxy started",
         { queue := [], senderClosed := false, receiverClosed := false })
    ∧ (arti_progress_next { queue := [], senderClosed := true, receiverClosed := false }).1
        = ProgressNextResult.returns "No progress"
    ∧ (arti_progress_next { queue := [], senderClosed := false, receiverClosed := false }).1
        = ProgressNextResult.blocks := by
  refine ⟨?_, ?_, ?_⟩
  · exact (arti_progress_next_blocking_spec
      { queue := ["Proxy started"], senderClosed := false, receiverClosed := false }).1
      "Proxy started" [] rfl (by decide)
  · exact (arti_progress_next_blocking_spec
      { queue := [], senderClosed := true, receiverClosed := false }).2.1 rfl rfl
  · exact (arti_progress_next_blocking_spec
      { queue := [], senderClosed := false, receiverClosed := false }).2.2 rfl rfl

/-- C1 counterexample: a fully successful `arti_start` call creates a
fresh `TokioNativeTlsRuntime` (a second execution context beside the
process-wide `RUNTIME`) and drives its bootstrap on that per-call
runtime, not on the process-wide one; re-bootstrap likewise blocks on
the client's own per-call runtime. -/
theorem arti_start_bootstrap_not_on_global_runtime :
    (arti_start envOk 9050 st0).runtimesCreated = 1
    ∧ (arti_start envOk 9050 st0).bootstrapRanOn = some (ExecCtx.perCall 0)
    ∧ ExecCtx.perCall 0 ≠ ExecCtx.globalRuntime
    ∧ arti_client_bootstrap_blocksOn c0 = ExecCtx.perCall 0 := by
  refine ⟨rfl, rfl, ?_, rfl⟩
  decide

/-- C1 amended: only the spawned proxy task runs on the process-wide
`RUNTIME`; every `arti_start` call creates at most one additional
`TokioNativeTlsRuntime` and, when it reaches bootstrap, blocks the
bootstrap on that per-call runtime (never on the global one); and
`arti_client_bootstrap` blocks on the client's own per-call
runtime. -/
theorem arti_runtime_usage (env : StartEnv) (port : Nat) (st : St) (c : TorClient) :
    (∀ t, (arti_start env port st).spawnedTask = some t →
      t.runsOn = ExecCtx.globalRuntime)
    ∧ (∀ ctx, (arti_start env port st).bootstrapRanOn = some ctx →
      ctx = ExecCtx.perCall st.nextRuntime ∧ ctx ≠ ExecCtx.globalRuntime)
    ∧ (arti_start env port st).runtimesCreated ≤ 1
    ∧ arti_client_bootstrap_blocksOn c = ExecCtx.perCall c.runtimeId := by
  obtain ⟨sd, cd, rc, cb, bs, gok, pr⟩ := env
  cases sd <;> cases cd <;> cases rc <;> cases cb <;> cases bs <;> cases gok <;>
    simp [arti_start, start_proxy, arti_client_bootstrap_blocksOn]

/-- Witness for the amended C1 at a concrete successful call. -/
theorem arti_runtime_usage_witness :
    ProxyTask.runsOn { runsOn := ExecCtx.globalRuntime, msg := "Proxy started", port := 9050 }
      = ExecCtx.globalRuntime
    ∧ (ExecCtx.perCall 0 = ExecCtx.perCall st0.nextRuntime
        ∧ ExecCtx.perCall 0 ≠ ExecCtx.globalRuntime) :=
  ⟨(arti_runtime_usage envOk 9050 st0 c0).1 _ rfl,
   (arti_runtime_usage envOk 9050 st0 c0).2.1 (ExecCtx.perCall 0) rfl⟩

/-- C2 counterexample: in a fully successful concrete `arti_start`
call, the client-lifecycle steps publish no progress message at all
(the returned channel is still empty), and driving the spawned proxy
task to completion publishes exactly one message — `"Proxy started"` —
so fewer than two messages are ever published. -/
theorem arti_start_single_progress_message :
    (arti_start envOk 9050 st0).channel.queue = []
    ∧ (arti_start envOk 9050 st0).spawnedTask
        = some { runsOn := ExecCtx.globalRuntime, msg := "Proxy started", port := 9050 }
    ∧ (runProxyTask { runsOn := ExecCtx.globalRuntime, msg := "Proxy started", port := 9050 }
        (Except.ok ()) (arti_start envOk 9050 st0).channel none).channel.queue
        = ["Proxy started"]
    ∧ List.length ["Proxy started"] < 2 := by
  exact ⟨rfl, rfl, rfl, by decide⟩

/-- C2 amended: a successful `arti_start` publishes exactly one
progress message — `"Proxy started"`, sent by the spawned proxy task;
the client-lifecycle steps publish none (the channel returned by
`arti_start` is empty); and `arti_progress_next` then returns that
message. -/
theorem arti_start_progress_messages (env : StartEnv) (port : Nat) (st : St)
    (t : ProxyTask) (res : Except String Unit)
    (h : (arti_start env port st).spawnedTask = some t) :
    t.msg = "Proxy started"
    ∧ (arti_start env port st).channel.queue = []
    ∧ (runProxyTask t res (arti_start env port st).channel none).channel.queue
        = ["Proxy started"]
    ∧ (arti_progress_next
        (runProxyTask t res (arti_start env port st).channel none).channel).1
        = ProgressNextResult.returns "Proxy started" := by
  rcases arti_start_cases env port st with
    ⟨e, _, _, _, hn, _⟩ | ⟨_, _, _, _, hn, _⟩ | ⟨_, _, _, _, htask, hch⟩
  · rw [hn] at h
    exact Option.noConfusion h
  · rw [hn] at h
    exact Option.noConfusion h
  · rw [htask] at h
    injection h with ht
    subst ht
    rw [hch]
    exact ⟨rfl, rfl, rfl, rfl⟩

/-- Witness for the amended C2 at a concrete successful call whose
proxy service later exits cleanly. -/
theorem arti_start_progress_messages_witness :
    ProxyTask.msg { runsOn := ExecCtx.globalRuntime, msg := "Proxy started", port := 9050 }
      = "Proxy started"
    ∧ (arti_start envOk 9050 st0).channel.queue = []
    ∧ (runProxyTask { runsOn := ExecCtx.globalRuntime, msg := "Proxy started", port := 9050 }
        (Except.ok ()) (arti_start envOk 9050 st0).channel none).channel.queue
        = ["Proxy started"]
    ∧ (arti_progress_next
        (runProxyTask { runsOn := ExecCtx.globalRuntime, msg := "Proxy started", port := 9050 }
          (Except.ok ()) (arti_start envOk 9050 st0).channel none).channel).1
        = ProgressNextResult.returns "Proxy started" :=
  arti_start_progress_messages envOk 9050 st0
    { runsOn := ExecCtx.globalRuntime, msg := "Proxy started", port := 9050 }
    (Except.ok ()) rfl

/-- C8 counterexample: two boundary failure modes panic instead of
returning a sentinel with the error recorded — when the lazy build of
the process-wide `RUNTIME` failed, a successful bootstrap drives
`arti_start` into `start_proxy`, whose `unwrap` panics (and nothing is
recorded in the error slot); and `arti_progress_next` panics on a
message containing an interior NUL byte. -/
theorem boundary_panics_exist :
    (arti_start envNoRt 9050 st0).outcome = Outcome.panicked
    ∧ (arti_start envNoRt 9050 st0).slot = none
    ∧ (arti_progress_next
        { queue := ["x\x00y"], senderClosed := false, receiverClosed := false }).1
        = ProgressNextResult.panicked := by
  refine ⟨rfl, rfl, ?_⟩
  decide

/-- C8 amended: given that the process-wide `RUNTIME` built
successfully, `arti_start` never panics and each of its handled
failure paths returns the sentinel `Tor` with the failure's message
recorded in the calling thread's slot; and `arti_progress_next` /
`arti_last_error_message` do not panic as long as the strings they
convert contain no interior NUL byte (the panics of the
counterexample are the only exceptions). -/
theorem boundary_failure_paths_no_unwind (env : StartEnv) (port : Nat) (st : St)
    (hrt : env.globalRuntimeOk = true) :
    (arti_start env port st).outcome ≠ Outcome.panicked
    ∧ (∀ e, firstStartError env = some e →
      (arti_start env port st).outcome = Outcome.ok
          { client := 0
            proxy := 0
            progress_sender := st.nextPtr + 1
            progress_receiver := st.nextPtr + 2 }
        ∧ (arti_start env port st).slot = some e)
    ∧ (∀ ch : Channel, (∀ m ∈ ch.queue, hasInteriorNul m = false) →
      (arti_progress_next ch).1 ≠ ProgressNextResult.panicked)
    ∧ (∀ s : ErrorSlot, (∀ e, s = some e → hasInteriorNul e = false) →
      (arti_last_error_message s).1 ≠ Outcome.panicked) := by
  refine ⟨?_, ?_, ?_, ?_⟩
  · rcases arti_start_cases env port st with
      ⟨e, _, ho, _, _, _⟩ | ⟨_, hg, _, _, _, _⟩ | ⟨_, _, ho, _, _, _⟩
    · rw [ho]
      exact fun hc => Outcome.noConfusion hc
    · rw [hrt] at hg
      exact Bool.noConfusion hg
    · rw [ho]
      exact fun hc => Outcome.noConfusion hc
  · intro e he
    rcases arti_start_cases env port st with
      ⟨e', hf, ho, hs, _, _⟩ | ⟨hf, _, _, _, _, _⟩ | ⟨hf, _, _, _, _, _⟩
    · rw [hf] at he
      injection he with hee
      subst hee
      exact ⟨ho, hs⟩
    · rw [hf] at he
      exact Option.noConfusion he
    · rw [hf] at he
      exact Option.noConfusion he
  · intro ch hnul
    obtain ⟨q, sc, rc⟩ := ch
    cases q with
    | nil =>
      cases sc <;> intro hc <;> exact ProgressNextResult.noConfusion hc
    | cons m rest =>
      have hm : hasInteriorNul m = false := hnul m (List.mem_cons_self m rest)
      simp [arti_progress_next, blocking_recv, cstringNew, hm]
  · intro s hnul
    cases s with
    | none =>
      intro hc
      exact Outcome.noConfusion hc
    | some e =>
      have he : hasInteriorNul e = false := hnul e rfl
      simp [arti_last_error_message, take_last_error, cstringNew, he]

/-- Witness for the amended C8: concrete failing-decode call returns
the sentinel with the message recorded, and concrete NUL-free
conversions do not panic. -/
theorem boundary_failure_paths_no_unwind_witness :
    ((arti_start envBadState 9050 st0).outcome = Outcome.ok
        { client := 0, proxy := 0, progress_sender := 1, progress_receiver := 2 }
      ∧ (arti_start envBadState 9050 st0).slot = some "invalid utf-8")
    ∧ (arti_progress_next
        { queue := ["Proxy started"], senderClosed := false, receiverClosed := false }).1
        ≠ ProgressNextResult.panicked
    ∧ (arti_last_error_message (some "boom")).1 ≠ Outcome.panicked := by
  refine ⟨?_, ?_, ?_⟩
  · exact (boundary_failure_paths_no_unwind envBadState 9050 st0 rfl).2.1 "invalid utf-8" rfl
  · refine (boundary_failure_paths_no_unwind envBadState 9050 st0 rfl).2.2.1 _ ?_
    intro m hm
    rw [List.mem_singleton] at hm
    subst hm
    decide
  · refine (boundary_failure_paths_no_unwind envBadState 9050 st0 rfl).2.2.2 _ ?_
    intro e he
    injection he with hee
    subst hee
    decide

end ArtiFfi
